import Mathlib

/-!
Shallow embedding of the KNoT value-proxy layer (core/src/proxy.c).

Modelling conventions:
* Machine integers are Nat / Int; u32 wraparound is made explicit with
  percent 2^32 where the source relies on it (timer arithmetic).
* C float values are modelled as exact rationals.  The source performs no
  arithmetic on floats, only copies and order/equality comparisons, so this
  model is exact for finite, non-NaN values.
* The C tagged union knot_value_type (from the external protocol headers) is
  modelled as a structure with one field per member.  Member overlap
  (type punning) is not modelled: writing one member leaves the others
  unchanged.  The proxy reads each member only for the channel's registered
  kind, except for the float-change check at proxy.c line 433, which reads
  the val_i member of a float channel; see the C1 development below.
* Callbacks are function pointers in C; they are modelled as optional
  callback identifiers stored in the channel, resolved by an environment
  cbs : Nat -> knot_proxy -> knot_proxy supplied to the operations that
  invoke them (the application callback receives the channel handle and may
  mutate the channel through the public API).
* The external validators knot_schema_is_valid / knot_config_is_valid and
  the external constant KNOT_DATA_RAW_SIZE (raw buffer capacity) are
  parameters of the model.
-/

/-- Event flag constants from the external KNoT protocol header. -/
def KNOT_EVT_FLAG_NONE : Nat := 0x00

/-- Event flag: notify on value change. -/
def KNOT_EVT_FLAG_CHANGE : Nat := 0x01

/-- Event flag: notify periodically. -/
def KNOT_EVT_FLAG_TIME : Nat := 0x02

/-- Event flag: notify on upper-threshold crossing. -/
def KNOT_EVT_FLAG_UPPER_THRESHOLD : Nat := 0x04

/-- Event flag: notify on lower-threshold crossing. -/
def KNOT_EVT_FLAG_LOWER_THRESHOLD : Nat := 0x08

/-- Maximum schema name length, from the external protocol header. -/
def KNOT_PROTOCOL_DATA_NAME_LEN : Nat := 64

/-- Sentinel id marking an unassigned proxy slot (0xff in the source). -/
def UNASSIGNED_ID : Nat := 0xff

/-- Errno constant EINVAL. -/
def EINVAL : Int := 22

/-- Modulus of u32 arithmetic. -/
def U32 : Nat := 2 ^ 32

/-- Value kinds a channel schema can carry (KNOT_VALUE_TYPE_* in the
external header; only distinctness of the codes matters to proxy.c). -/
inductive KnotValueType where
  | vBool
  | vInt
  | vFloat
  | vRaw
  deriving DecidableEq, Repr

/-- Model of the C tagged union knot_value_type: one field per member,
member overlap not modelled (see file header). raw is the byte buffer. -/
structure knot_value_type where
  val_b : Bool
  val_i : Int
  val_f : ℚ
  raw : List Nat
  deriving DecidableEq, Repr

/-- Zeroed union value with a raw buffer of rawSize zero bytes. -/
def knot_value_zero (rawSize : Nat) : knot_value_type :=
  { val_b := false, val_i := 0, val_f := 0, raw := List.replicate rawSize 0 }

/-- Channel schema (knot_schema). -/
structure knot_schema where
  type_id : Nat
  unit : Nat
  value_type : KnotValueType
  name : String
  deriving DecidableEq, Repr

/-- Channel notification configuration (knot_config). -/
structure knot_config where
  event_flags : Nat
  time_sec : Nat
  lower_limit : knot_value_type
  upper_limit : knot_value_type
  deriving DecidableEq, Repr

/-- One entry of the proxy pool (struct knot_proxy in proxy.c). -/
structure knot_proxy where
  id : Nat
  schema : knot_schema
  value : knot_value_type
  send : Bool
  wait_resp : Bool
  upper_flag : Bool
  lower_flag : Bool
  olen : Nat
  rlen : Nat
  config : knot_config
  last_timeout : Nat
  poll_cb : Option Nat
  changed_cb : Option Nat
  deriving DecidableEq, Repr

/-- Truth of a C bitmask test: flag AND flags is nonzero. -/
def flag_in (flag flags : Nat) : Bool := Nat.land flag flags != 0

/-- Macro check_bool_change (proxy.c lines 24-26). -/
def check_bool_change (proxy : knot_proxy) (bval : Bool) : Bool :=
  flag_in KNOT_EVT_FLAG_CHANGE proxy.config.event_flags &&
    bval != proxy.value.val_b

/-- Macro check_int_change (proxy.c lines 28-30). -/
def check_int_change (proxy : knot_proxy) (s32val : Int) : Bool :=
  flag_in KNOT_EVT_FLAG_CHANGE proxy.config.event_flags &&
    s32val != proxy.value.val_i

/-- Expansion of the macro check_int_change at a float argument, as it occurs
at proxy.c line 433: the float candidate fval is compared against the val_i
member of the stored union, with val_i promoted to float (exact here). -/
def check_int_change_at_float (proxy : knot_proxy) (fval : ℚ) : Bool :=
  flag_in KNOT_EVT_FLAG_CHANGE proxy.config.event_flags &&
    fval != (proxy.value.val_i : ℚ)

/-- Macro check_int_upper_threshold (proxy.c lines 32-34). -/
def check_int_upper_threshold (proxy : knot_proxy) (s32val : Int) : Bool :=
  flag_in KNOT_EVT_FLAG_UPPER_THRESHOLD proxy.config.event_flags &&
    decide (s32val > proxy.config.upper_limit.val_i)

/-- Macro check_int_lower_threshold (proxy.c lines 36-38). -/
def check_int_lower_threshold (proxy : knot_proxy) (s32val : Int) : Bool :=
  flag_in KNOT_EVT_FLAG_LOWER_THRESHOLD proxy.config.event_flags &&
    decide (s32val < proxy.config.lower_limit.val_i)

/-- Macro check_float_change (proxy.c lines 40-42).  Defined in the source
but never used: the float branch of set uses check_int_change instead. -/
def check_float_change (proxy : knot_proxy) (fval : ℚ) : Bool :=
  flag_in KNOT_EVT_FLAG_CHANGE proxy.config.event_flags &&
    fval != proxy.value.val_f

/-- Macro check_float_upper_threshold (proxy.c lines 44-46). -/
def check_float_upper_threshold (proxy : knot_proxy) (fval : ℚ) : Bool :=
  flag_in KNOT_EVT_FLAG_UPPER_THRESHOLD proxy.config.event_flags &&
    decide (fval > proxy.config.upper_limit.val_f)

/-- Macro check_float_lower_threshold (proxy.c lines 48-50). -/
def check_float_lower_threshold (proxy : knot_proxy) (fval : ℚ) : Bool :=
  flag_in KNOT_EVT_FLAG_LOWER_THRESHOLD proxy.config.event_flags &&
    decide (fval < proxy.config.lower_limit.val_f)

/-- Comparison of the first n bytes of two buffers (memcmp ... == 0). -/
def memcmp_eq (a b : List Nat) (n : Nat) : Bool :=
  a.take n == b.take n

/-- Macro check_raw_change (proxy.c lines 52-56). -/
def check_raw_change (proxy : knot_proxy) (rawval : List Nat) (rawlen : Nat) :
    Bool :=
  flag_in KNOT_EVT_FLAG_CHANGE proxy.config.event_flags &&
    (proxy.rlen != rawlen || !memcmp_eq proxy.value.raw rawval rawlen)

/-- Function check_timeout (proxy.c lines 368-382).  The current uptime is an
explicit parameter (k_uptime_get truncated to u32); elapsed time is the u32
difference.  Returns the timeout verdict and the possibly rebased channel. -/
def check_timeout (proxy : knot_proxy) (now : Nat) : Bool × knot_proxy :=
  if !flag_in KNOT_EVT_FLAG_TIME proxy.config.event_flags then
    (false, proxy)
  else
    let current_time := now % U32
    let elapsed_time := (current_time + U32 - proxy.last_timeout % U32) % U32
    if elapsed_time ≥ proxy.config.time_sec * 1000 then
      (true, { proxy with last_timeout := current_time })
    else
      (false, proxy)

/-- Candidate value handed to knot_proxy_value_set_basic through its void
pointer; the branch taken by the source reads it at the channel's kind. -/
inductive BasicVal where
  | b (v : Bool)
  | i (v : Int)
  | f (v : ℚ)
  deriving DecidableEq, Repr

/-- Read the candidate as a bool (pointer reinterpretation across kinds is
not modelled; a mismatched read yields the default). -/
def BasicVal.asBool : BasicVal → Bool
  | .b v => v
  | _ => false

/-- Read the candidate as a signed 32-bit integer. -/
def BasicVal.asInt : BasicVal → Int
  | .i v => v
  | _ => 0

/-- Read the candidate as a float. -/
def BasicVal.asFloat : BasicVal → ℚ
  | .f v => v
  | _ => 0

/-- Function knot_proxy_value_set_basic (proxy.c lines 384-453).  The handle
is an optional channel (none models the NULL pointer); the result is the
returned bool together with the channel after the call. -/
def knot_proxy_value_set_basic (popt : Option knot_proxy) (value : BasicVal)
    (now : Nat) : Bool × Option knot_proxy :=
  match popt with
  | none => (false, none)
  | some proxy0 =>
    let tp := check_timeout proxy0 now
    let timeout := tp.1
    let proxy := tp.2
    match proxy.schema.value_type with
    | .vBool =>
      let bval := value.asBool
      let change := check_bool_change proxy bval
      if proxy.send || timeout || change then
        (true, some { proxy with
          olen := 1
          value := { proxy.value with val_b := bval }
          send := proxy.wait_resp })
      else
        (false, some proxy)
    | .vInt =>
      let s32val := value.asInt
      let change := check_int_change proxy s32val
      let upper := check_int_upper_threshold proxy s32val
      let lower := check_int_lower_threshold proxy s32val
      let rp :=
        if proxy.send || timeout || change ||
            (upper && !proxy.upper_flag) || (lower && !proxy.lower_flag) then
          (true, { proxy with
            olen := 4
            value := { proxy.value with val_i := s32val }
            send := proxy.wait_resp })
        else
          (false, proxy)
      (rp.1, some { rp.2 with upper_flag := upper, lower_flag := lower })
    | .vFloat =>
      let fval := value.asFloat
      let change := check_int_change_at_float proxy fval
      let upper := check_float_upper_threshold proxy fval
      let lower := check_float_lower_threshold proxy fval
      let rp :=
        if proxy.send || timeout || change ||
            (upper && !proxy.upper_flag) || (lower && !proxy.lower_flag) then
          (true, { proxy with
            olen := 4
            value := { proxy.value with val_f := fval }
            send := proxy.wait_resp })
        else
          (false, proxy)
      (rp.1, some { rp.2 with upper_flag := upper, lower_flag := lower })
    | .vRaw =>
      (false, some proxy)

/-- Copy of the first n source bytes over the head of a destination buffer
(memcpy into a larger buffer). -/
def memcpy_bytes (dst src : List Nat) (n : Nat) : List Nat :=
  src.take n ++ dst.drop n

/-- Function knot_proxy_value_set_string (proxy.c lines 455-483), with the
external buffer capacity KNOT_DATA_RAW_SIZE as parameter rawSize. -/
def knot_proxy_value_set_string (rawSize : Nat) (popt : Option knot_proxy)
    (value : List Nat) (len : Nat) (now : Nat) : Bool × Option knot_proxy :=
  match popt with
  | none => (false, none)
  | some proxy0 =>
    if proxy0.schema.value_type ≠ .vRaw then
      (false, some proxy0)
    else
      let tp := check_timeout proxy0 now
      let timeout := tp.1
      let proxy := tp.2
      let change := check_raw_change proxy value len
      if !proxy.send && !change && !timeout then
        (false, some proxy)
      else
        let len2 := min rawSize len
        (true, some { proxy with
          olen := len2
          rlen := len2
          value := { proxy.value with
            raw := memcpy_bytes proxy.value.raw value len2 }
          send := proxy.wait_resp })

/-- Global proxy state: the fixed pool of channels and the static last_id. -/
structure ProxyState where
  pool : List knot_proxy
  last_id : Nat
  deriving DecidableEq, Repr

/-- Function knot_proxy_register (proxy.c lines 103-156).  The pool capacity
CONFIG_KNOT_THING_DATA_MAX is the pool length; the external validator
knot_schema_is_valid is a parameter (returns 0 on acceptance, as in C); the
C NULL name is modelled as none.  On success the updated state is returned
(the C handle is the address of slot id). -/
def knot_proxy_register (knot_schema_is_valid : Nat → KnotValueType → Nat → Int)
    (st : ProxyState) (id : Nat) (name : Option String) (type_id : Nat)
    (value_type : KnotValueType) (unit : Nat)
    (changed_cb poll_cb : Option Nat) : Option ProxyState :=
  if id ≥ st.pool.length then
    none
  else
    match st.pool[id]? with
    | none => none
    | some slot =>
      if slot.id ≠ UNASSIGNED_ID then
        none
      else if knot_schema_is_valid type_id value_type unit ≠ 0 ∨ name = none then
        none
      else
        let nm := (name.getD "").take KNOT_PROTOCOL_DATA_NAME_LEN
        let proxy := { slot with
          id := id
          schema := { type_id := type_id, unit := unit,
                      value_type := value_type, name := nm }
          send := false
          upper_flag := false
          lower_flag := false
          olen := 0
          config := { slot.config with event_flags := KNOT_EVT_FLAG_NONE }
          poll_cb := poll_cb
          changed_cb := changed_cb }
        let last := if id > st.last_id ∨ st.last_id = UNASSIGNED_ID then id
                    else st.last_id
        some { pool := st.pool.set id proxy, last_id := last }

/-- One argument of the variadic configuration call: the event code read by
va_arg together with its payload.  The threshold payloads carry both the int
and the float the caller would pass; the source reads the one matching the
channel's kind.  An unrecognized event code is the invalid constructor. -/
inductive CfgArg where
  | terminator
  | change
  | time (sec : Nat)
  | upper (vi : Int) (vf : ℚ)
  | lower (vi : Int) (vf : ℚ)
  | invalid (code : Nat)
  deriving DecidableEq, Repr

/-- Accumulator of the argument-parsing loop of knot_proxy_set_config. -/
structure CfgAcc where
  event_flags : Nat
  timeout_sec : Nat
  lower_limit : knot_value_type
  upper_limit : knot_value_type
  deriving DecidableEq, Repr

/-- Argument-parsing loop of knot_proxy_set_config (proxy.c lines 188-227).
Processes arguments until the KNOT_EVT_FLAG_NONE terminator (a well-formed
call ends with it; an exhausted list is treated as terminated), accumulating
flags, the timeout and the limits; an unrecognized code aborts with none. -/
def parse_config_args (vt : KnotValueType) : List CfgArg → CfgAcc → Option CfgAcc
  | [], acc => some acc
  | a :: rest, acc =>
    match a with
    | .terminator => some acc
    | .change =>
      parse_config_args vt rest
        { acc with event_flags := Nat.lor acc.event_flags KNOT_EVT_FLAG_CHANGE }
    | .time s =>
      parse_config_args vt rest
        { acc with
          event_flags := Nat.lor acc.event_flags KNOT_EVT_FLAG_TIME
          timeout_sec := s % 2 ^ 16 }
    | .upper vi vf =>
      let hi := acc.upper_limit
      let hi := if vt = .vInt then { hi with val_i := vi } else hi
      let hi := if vt = .vFloat then { hi with val_f := vf } else hi
      parse_config_args vt rest
        { acc with
          event_flags := Nat.lor acc.event_flags KNOT_EVT_FLAG_UPPER_THRESHOLD
          upper_limit := hi }
    | .lower vi vf =>
      let lo := acc.lower_limit
      let lo := if vt = .vInt then { lo with val_i := vi } else lo
      let lo := if vt = .vFloat then { lo with val_f := vf } else lo
      parse_config_args vt rest
        { acc with
          event_flags := Nat.lor acc.event_flags KNOT_EVT_FLAG_LOWER_THRESHOLD
          lower_limit := lo }
    | .invalid _ => none

/-- Function knot_proxy_set_config (proxy.c lines 158-250).  The external
validator knot_config_is_valid is a parameter (0 means acceptance).  The
local limit variables start with val_i zeroed (the source initializes only
that member; the rest of the zero union models the indeterminate locals). -/
def knot_proxy_set_config
    (knot_config_is_valid :
      Nat → KnotValueType → Nat → knot_value_type → knot_value_type → Int)
    (st : ProxyState) (id : Nat) (args : List CfgArg) : Bool × ProxyState :=
  if id ≥ st.pool.length then
    (false, st)
  else
    match st.pool[id]? with
    | none => (false, st)
    | some proxy =>
      if proxy.id ≠ id then
        (false, st)
      else
        let acc0 : CfgAcc :=
          { event_flags := KNOT_EVT_FLAG_NONE
            timeout_sec := 0
            lower_limit := knot_value_zero 0
            upper_limit := knot_value_zero 0 }
        match parse_config_args proxy.schema.value_type args acc0 with
        | none => (false, st)
        | some acc =>
          if knot_config_is_valid acc.event_flags proxy.schema.value_type
              acc.timeout_sec acc.lower_limit acc.upper_limit ≠ 0 then
            (false, st)
          else
            let proxy :=
              if flag_in KNOT_EVT_FLAG_UPPER_THRESHOLD acc.event_flags then
                { proxy with config :=
                    { proxy.config with upper_limit := acc.upper_limit } }
              else proxy
            let proxy :=
              if flag_in KNOT_EVT_FLAG_LOWER_THRESHOLD acc.event_flags then
                { proxy with config :=
                    { proxy.config with lower_limit := acc.lower_limit } }
              else proxy
            let proxy := { proxy with config :=
              { proxy.config with
                event_flags := acc.event_flags
                time_sec := acc.timeout_sec } }
            (true, { st with pool := st.pool.set id proxy })

/-- Function proxy_get_last_id (proxy.c lines 269-272). -/
def proxy_get_last_id (st : ProxyState) : Nat := st.last_id

/-- Function proxy_read (proxy.c lines 275-303).  cbs resolves callback
identifiers to their effect on the channel handle.  Returns the value and
olen when the poll callback produced output, and the updated state. -/
def proxy_read (cbs : Nat → knot_proxy → knot_proxy) (st : ProxyState)
    (id : Nat) (wait_resp : Bool) :
    Option (knot_value_type × Nat) × ProxyState :=
  match st.pool[id]? with
  | none => (none, st)
  | some proxy =>
    if proxy.id = UNASSIGNED_ID then
      (none, st)
    else
      match proxy.poll_cb with
      | none => (none, st)
      | some cb =>
        let proxy := { proxy with olen := 0, wait_resp := wait_resp }
        let proxy := cbs cb proxy
        let st2 := { st with pool := st.pool.set id proxy }
        if proxy.olen = 0 then
          (none, st2)
        else
          (some (proxy.value, proxy.olen), st2)

/-- Function proxy_write (proxy.c lines 305-336): the delivery path.  Stores
the incoming union whole; for a Raw channel additionally records value_len
as rlen; then invokes the changed callback and returns its olen. -/
def proxy_write (cbs : Nat → knot_proxy → knot_proxy) (st : ProxyState)
    (id : Nat) (value : knot_value_type) (value_len : Nat) :
    Int × ProxyState :=
  if id > st.last_id then
    (-EINVAL, st)
  else
    match st.pool[id]? with
    | none => (-EINVAL, st)
    | some proxy =>
      if proxy.id = UNASSIGNED_ID then
        (-EINVAL, st)
      else
        match proxy.changed_cb with
        | none => (0, st)
        | some cb =>
          let proxy := { proxy with value := value }
          let proxy :=
            if proxy.schema.value_type = .vRaw then
              { proxy with rlen := value_len }
            else proxy
          let proxy := cbs cb proxy
          ((proxy.olen : Int), { st with pool := st.pool.set id proxy })

/-- Function proxy_force_send (proxy.c lines 338-351). -/
def proxy_force_send (st : ProxyState) (id : Nat) : Int × ProxyState :=
  match st.pool[id]? with
  | none => (-EINVAL, st)
  | some proxy =>
    if proxy.id = UNASSIGNED_ID then
      (-EINVAL, st)
    else
      (0, { st with pool := st.pool.set id { proxy with send := true } })

/-- Function proxy_confirm_sent (proxy.c lines 353-366). -/
def proxy_confirm_sent (st : ProxyState) (id : Nat) : Int × ProxyState :=
  match st.pool[id]? with
  | none => (-EINVAL, st)
  | some proxy =>
    if proxy.id = UNASSIGNED_ID then
      (-EINVAL, st)
    else
      (0, { st with pool := st.pool.set id { proxy with send := false } })

/-- Fully zeroed pool entry (the static storage before proxy_init). -/
def zero_proxy (rawSize : Nat) : knot_proxy :=
  { id := 0
    schema := { type_id := 0, unit := 0, value_type := .vBool, name := "" }
    value := knot_value_zero rawSize
    send := false
    wait_resp := false
    upper_flag := false
    lower_flag := false
    olen := 0
    rlen := 0
    config := { event_flags := 0, time_sec := 0
                lower_limit := knot_value_zero rawSize
                upper_limit := knot_value_zero rawSize }
    last_timeout := 0
    poll_cb := none
    changed_cb := none }

/-- Pool entry right after proxy_init: zeroed with the unassigned id. -/
def pristine_proxy (rawSize : Nat) : knot_proxy :=
  { zero_proxy rawSize with id := UNASSIGNED_ID }

/-- Function proxy_init (proxy.c lines 88-96): zeroes the pool and marks
every slot unassigned.  It does not touch the static last_id. -/
def proxy_init (rawSize : Nat) (st : ProxyState) : ProxyState :=
  { pool := List.replicate st.pool.length (pristine_proxy rawSize)
    last_id := st.last_id }

/-- State at program start: static zero-initialized storage (last_id static
initializer is 0xff) followed by the single proxy_init call. -/
def initial_state (m rawSize : Nat) : ProxyState :=
  proxy_init rawSize
    { pool := List.replicate m (zero_proxy rawSize), last_id := UNASSIGNED_ID }

/-- One invocation of a public registry operation (the operations that take
a channel handle rather than an id run inside the callbacks resolved by the
cbs environment, which acts on the handle). -/
inductive ProxyOp where
  | opRegister (id : Nat) (name : Option String) (type_id : Nat)
      (vt : KnotValueType) (unit : Nat) (ccb pcb : Option Nat)
  | opSetConfig (id : Nat) (args : List CfgArg)
  | opRead (id : Nat) (wait : Bool)
  | opWrite (id : Nat) (v : knot_value_type) (len : Nat)
  | opForceSend (id : Nat)
  | opConfirmSent (id : Nat)

/-- Effect of one operation on the registry state. -/
def proxy_step (sv : Nat → KnotValueType → Nat → Int)
    (cv : Nat → KnotValueType → Nat → knot_value_type → knot_value_type → Int)
    (cbs : Nat → knot_proxy → knot_proxy) (st : ProxyState) :
    ProxyOp → ProxyState
  | .opRegister id name t vt u ccb pcb =>
    (knot_proxy_register sv st id name t vt u ccb pcb).getD st
  | .opSetConfig id args => (knot_proxy_set_config cv st id args).2
  | .opRead id w => (proxy_read cbs st id w).2
  | .opWrite id v len => (proxy_write cbs st id v len).2
  | .opForceSend id => (proxy_force_send st id).2
  | .opConfirmSent id => (proxy_confirm_sent st id).2

/-- States reachable from the initial state through the public registry
operations, for a fixed validator pair and callback environment. -/
inductive Reach (sv : Nat → KnotValueType → Nat → Int)
    (cv : Nat → KnotValueType → Nat → knot_value_type → knot_value_type → Int)
    (cbs : Nat → knot_proxy → knot_proxy) (m rawSize : Nat) :
    ProxyState → Prop
  | init : Reach sv cv cbs m rawSize (initial_state m rawSize)
  | step {st : ProxyState} (op : ProxyOp) :
      Reach sv cv cbs m rawSize st →
      Reach sv cv cbs m rawSize (proxy_step sv cv cbs st op)

/-! Concrete fixtures used by the claim theorems. -/

/-- A default channel configuration with no flags. -/
def config_none : knot_config :=
  { event_flags := KNOT_EVT_FLAG_NONE
    time_sec := 0
    lower_limit := knot_value_zero 0
    upper_limit := knot_value_zero 0 }

/-- A Float32 channel with OnChange configured whose stored float value is
1 (as produced inside the model by a previous triggering set of 1). -/
def floatChangeChannel : knot_proxy :=
  { zero_proxy 0 with
    id := 0
    schema := { type_id := 0, unit := 0, value_type := .vFloat, name := "f" }
    value := { val_b := false, val_i := 0, val_f := 1, raw := [] }
    config := { config_none with event_flags := KNOT_EVT_FLAG_CHANGE } }

/-- Claim C1: for a Float32 channel with OnChange, the source computes the
change condition with the macro check_int_change applied to the float
candidate (proxy.c line 433), comparing it against the val_i member of the
stored union instead of the val_f member, although the intended macro
check_float_change exists unused (proxy.c lines 40-42).  Consequently a set
call whose float candidate equals the stored float value and with no other
condition active returns true, where the claim requires false: here the
stored float is 1, the candidate is 1, the unused float-change check is
false, yet set returns true because the candidate is compared against the
val_i member. -/
theorem c1_float_change_reads_val_i_member :
    (knot_proxy_value_set_basic (some floatChangeChannel) (.f 1) 0).1 = true ∧
    check_float_change floatChangeChannel 1 = false ∧
    check_int_change_at_float floatChangeChannel 1 = true := by
  decide

/-- Feed a list of int candidates to a channel through repeated set calls at
a fixed time, collecting the returned trigger verdicts. -/
def feed_ints (now : Nat) : List Int → Option knot_proxy → List Bool
  | [], _ => []
  | v :: rest, popt =>
    let r := knot_proxy_value_set_basic popt (.i v) now
    r.1 :: feed_ints now rest r.2

/-- An Int32 channel configured with OnUpperThreshold = 100 and no other
flags, not forced and not waiting for a response. -/
def upperThresholdChannel : knot_proxy :=
  { zero_proxy 0 with
    id := 0
    schema := { type_id := 0, unit := 0, value_type := .vInt, name := "t" }
    config := { config_none with
      event_flags := KNOT_EVT_FLAG_UPPER_THRESHOLD
      upper_limit := { knot_value_zero 0 with val_i := 100 } } }

/-- Auxiliary: with the OnTimer flag clear, check_timeout reports no timeout
and leaves the channel unchanged. -/
theorem check_timeout_no_flag (p : knot_proxy) (now : Nat)
    (h : flag_in KNOT_EVT_FLAG_TIME p.config.event_flags = false) :
    check_timeout p now = (false, p) := by
  unfold check_timeout
  rw [h]
  rfl

/-- Auxiliary: check_timeout either returns the channel unchanged or merely
rebases last_timeout to the truncated current time. -/
theorem check_timeout_snd (p : knot_proxy) (now : Nat) :
    (check_timeout p now).2 = p ∨
    (check_timeout p now).2 = { p with last_timeout := now % U32 } := by
  unfold check_timeout
  split
  · exact Or.inl rfl
  · dsimp only
    split
    · exact Or.inr rfl
    · exact Or.inl rfl

/-- Claim C2: threshold conditions are edge-triggered.  For an Int32 channel
with neither forced send nor OnChange nor OnTimer active, set triggers
exactly when a threshold is exceeded whose crossing latch was clear; after
every set call on an Int32 or Float32 channel the upper and lower latches
are rewritten to the current beyond-limit verdicts regardless of the
trigger; and with OnUpperThreshold = 100 and no other flags the sequence
90, 101, 105, 99, 102 triggers exactly at 101 and 102. -/
theorem c2_threshold_edge_trigger :
    (∀ (p : knot_proxy) (v : Int) (now : Nat),
        p.schema.value_type = .vInt →
        p.send = false →
        flag_in KNOT_EVT_FLAG_CHANGE p.config.event_flags = false →
        flag_in KNOT_EVT_FLAG_TIME p.config.event_flags = false →
        ((knot_proxy_value_set_basic (some p) (.i v) now).1 = true ↔
          (check_int_upper_threshold p v = true ∧ p.upper_flag = false) ∨
          (check_int_lower_threshold p v = true ∧ p.lower_flag = false))) ∧
    (∀ (p : knot_proxy) (v : Int) (now : Nat) (q : knot_proxy),
        p.schema.value_type = .vInt →
        (knot_proxy_value_set_basic (some p) (.i v) now).2 = some q →
        q.upper_flag = check_int_upper_threshold p v ∧
        q.lower_flag = check_int_lower_threshold p v) ∧
    (∀ (p : knot_proxy) (v : ℚ) (now : Nat) (q : knot_proxy),
        p.schema.value_type = .vFloat →
        (knot_proxy_value_set_basic (some p) (.f v) now).2 = some q →
        q.upper_flag = check_float_upper_threshold p v ∧
        q.lower_flag = check_float_lower_threshold p v) ∧
    feed_ints 0 [90, 101, 105, 99, 102] (some upperThresholdChannel) =
      [false, true, false, false, true] := by
  refine ⟨?_, ?_, ?_, by decide⟩
  · intro p v now hk hsend hc ht
    have hct := check_timeout_no_flag p now ht
    simp only [knot_proxy_value_set_basic, hct, hk, BasicVal.asInt]
    simp only [check_int_change, hc, Bool.false_and, hsend]
    cases hu : check_int_upper_threshold p v <;>
      cases hl : check_int_lower_threshold p v <;>
        cases huf : p.upper_flag <;>
          cases hlf : p.lower_flag <;>
            simp
  · intro p v now q hk hq
    have hsub := check_timeout_snd p now
    have hk2 : (check_timeout p now).2.schema.value_type = .vInt := by
      rcases hsub with h | h <;> rw [h] <;> exact hk
    have hcu : check_int_upper_threshold (check_timeout p now).2 v =
        check_int_upper_threshold p v := by
      rcases hsub with h | h <;> rw [h] <;> rfl
    have hcl : check_int_lower_threshold (check_timeout p now).2 v =
        check_int_lower_threshold p v := by
      rcases hsub with h | h <;> rw [h] <;> rfl
    simp only [knot_proxy_value_set_basic, BasicVal.asInt, hk2] at hq
    injection hq with hq
    constructor
    · rw [← hq, ← hcu]
    · rw [← hq, ← hcl]
  · intro p v now q hk hq
    have hsub := check_timeout_snd p now
    have hk2 : (check_timeout p now).2.schema.value_type = .vFloat := by
      rcases hsub with h | h <;> rw [h] <;> exact hk
    have hcu : check_float_upper_threshold (check_timeout p now).2 v =
        check_float_upper_threshold p v := by
      rcases hsub with h | h <;> rw [h] <;> rfl
    have hcl : check_float_lower_threshold (check_timeout p now).2 v =
        check_float_lower_threshold p v := by
      rcases hsub with h | h <;> rw [h] <;> rfl
    simp only [knot_proxy_value_set_basic, BasicVal.asFloat, hk2] at hq
    injection hq with hq
    constructor
    · rw [← hq, ← hcu]
    · rw [← hq, ← hcl]

/-- Witness for claim C2: the general edge-trigger equivalence applied at
the concrete threshold channel and candidate 101. -/
theorem c2_threshold_edge_trigger_witness :
    (knot_proxy_value_set_basic (some upperThresholdChannel) (.i 101) 0).1 = true ↔
      (check_int_upper_threshold upperThresholdChannel 101 = true ∧
        upperThresholdChannel.upper_flag = false) ∨
      (check_int_lower_threshold upperThresholdChannel 101 = true ∧
        upperThresholdChannel.lower_flag = false) :=
  c2_threshold_edge_trigger.1 upperThresholdChannel 101 0 rfl rfl (by decide)
    (by decide)

/-- Auxiliary: full description of set on an Int32 channel whose only
configured event is OnTimer and which is not forced: the call triggers
exactly on an elapsed period, rebasing the timer base, and otherwise
changes nothing but the (clear) threshold latches. -/
theorem set_basic_int_timer_only (p : knot_proxy) (v : Int) (now : Nat)
    (hk : p.schema.value_type = .vInt)
    (hsend : p.send = false)
    (hc : flag_in KNOT_EVT_FLAG_CHANGE p.config.event_flags = false)
    (hup : flag_in KNOT_EVT_FLAG_UPPER_THRESHOLD p.config.event_flags = false)
    (hlo : flag_in KNOT_EVT_FLAG_LOWER_THRESHOLD p.config.event_flags = false)
    (ht : flag_in KNOT_EVT_FLAG_TIME p.config.event_flags = true) :
    knot_proxy_value_set_basic (some p) (.i v) now =
      if (now % U32 + U32 - p.last_timeout % U32) % U32 ≥
          p.config.time_sec * 1000 then
        (true, some { p with
          olen := 4
          value := { p.value with val_i := v }
          send := p.wait_resp
          upper_flag := false
          lower_flag := false
          last_timeout := now % U32 })
      else
        (false, some { p with upper_flag := false, lower_flag := false }) := by
  by_cases helapsed : (now % U32 + U32 - p.last_timeout % U32) % U32 ≥
      p.config.time_sec * 1000
  · have hct : check_timeout p now =
        (true, { p with last_timeout := now % U32 }) := by
      simp [check_timeout, ht, helapsed]
    simp [knot_proxy_value_set_basic, hct, hk, BasicVal.asInt,
      check_int_change, check_int_upper_threshold, check_int_lower_threshold,
      hc, hup, hlo, hsend, helapsed]
  · have hct : check_timeout p now = (false, p) := by
      simp [check_timeout, ht, helapsed]
    simp [knot_proxy_value_set_basic, hct, hk, BasicVal.asInt,
      check_int_change, check_int_upper_threshold, check_int_lower_threshold,
      hc, hup, hlo, hsend, helapsed]

/-- Claim C8: with OnTimer configured, the timeout condition of a set call
is true exactly when the u32 elapsed time since last_timeout reaches the
period (time_sec seconds, compared in milliseconds), in which case
last_timeout is rebased to the current time and otherwise left alone; and
on a channel with OnTimer as its only flag, not forced and not awaiting a
response, repeated set calls trigger exactly once per elapsed period,
regardless of the candidate values. -/
theorem c8_timer_periodicity :
    (∀ (p : knot_proxy) (now : Nat),
        flag_in KNOT_EVT_FLAG_TIME p.config.event_flags = true →
        (check_timeout p now).1 =
          decide ((now % U32 + U32 - p.last_timeout % U32) % U32 ≥
            p.config.time_sec * 1000) ∧
        (check_timeout p now).2 =
          (if (now % U32 + U32 - p.last_timeout % U32) % U32 ≥
              p.config.time_sec * 1000 then
            { p with last_timeout := now % U32 }
          else p)) ∧
    (∀ (p : knot_proxy) (v : Int) (now : Nat),
        p.schema.value_type = .vInt →
        p.send = false →
        flag_in KNOT_EVT_FLAG_CHANGE p.config.event_flags = false →
        flag_in KNOT_EVT_FLAG_UPPER_THRESHOLD p.config.event_flags = false →
        flag_in KNOT_EVT_FLAG_LOWER_THRESHOLD p.config.event_flags = false →
        flag_in KNOT_EVT_FLAG_TIME p.config.event_flags = true →
        ((knot_proxy_value_set_basic (some p) (.i v) now).1 = true ↔
          (now % U32 + U32 - p.last_timeout % U32) % U32 ≥
            p.config.time_sec * 1000)) ∧
    (∀ (p : knot_proxy) (v w : Int) (now later : Nat) (q : knot_proxy),
        p.schema.value_type = .vInt →
        p.send = false →
        p.wait_resp = false →
        flag_in KNOT_EVT_FLAG_CHANGE p.config.event_flags = false →
        flag_in KNOT_EVT_FLAG_UPPER_THRESHOLD p.config.event_flags = false →
        flag_in KNOT_EVT_FLAG_LOWER_THRESHOLD p.config.event_flags = false →
        flag_in KNOT_EVT_FLAG_TIME p.config.event_flags = true →
        (knot_proxy_value_set_basic (some p) (.i v) now).1 = true →
        (knot_proxy_value_set_basic (some p) (.i v) now).2 = some q →
        q.last_timeout = now % U32 ∧
        ((knot_proxy_value_set_basic (some q) (.i w) later).1 = true ↔
          (later % U32 + U32 - now % U32) % U32 ≥
            p.config.time_sec * 1000)) := by
  refine ⟨?_, ?_, ?_⟩
  · intro p now ht
    by_cases helapsed : (now % U32 + U32 - p.last_timeout % U32) % U32 ≥
        p.config.time_sec * 1000
    · simp [check_timeout, ht, helapsed]
    · simp [check_timeout, ht, helapsed]
  · intro p v now hk hsend hc hup hlo ht
    rw [set_basic_int_timer_only p v now hk hsend hc hup hlo ht]
    by_cases helapsed : (now % U32 + U32 - p.last_timeout % U32) % U32 ≥
        p.config.time_sec * 1000
    · simp [helapsed]
    · simp [helapsed]
  · intro p v w now later q hk hsend hw hc hup hlo ht htrig hq
    rw [set_basic_int_timer_only p v now hk hsend hc hup hlo ht] at htrig hq
    by_cases helapsed : (now % U32 + U32 - p.last_timeout % U32) % U32 ≥
        p.config.time_sec * 1000
    · rw [if_pos helapsed] at hq
      injection hq with hq
      have hlast : q.last_timeout = now % U32 := by rw [← hq]
      refine ⟨hlast, ?_⟩
      have hk2 : q.schema.value_type = .vInt := by rw [← hq]; exact hk
      have hsend2 : q.send = false := by rw [← hq]; exact hw
      have hc2 : flag_in KNOT_EVT_FLAG_CHANGE q.config.event_flags = false := by
        rw [← hq]; exact hc
      have hup2 : flag_in KNOT_EVT_FLAG_UPPER_THRESHOLD q.config.event_flags =
          false := by rw [← hq]; exact hup
      have hlo2 : flag_in KNOT_EVT_FLAG_LOWER_THRESHOLD q.config.event_flags =
          false := by rw [← hq]; exact hlo
      have ht2 : flag_in KNOT_EVT_FLAG_TIME q.config.event_flags = true := by
        rw [← hq]; exact ht
      have hts : q.config.time_sec = p.config.time_sec := by rw [← hq]
      rw [set_basic_int_timer_only q w later hk2 hsend2 hc2 hup2 hlo2 ht2,
        hlast, hts]
      rw [Nat.mod_mod_of_dvd now dvd_rfl]
      by_cases h2 : (later % U32 + U32 - now % U32) % U32 ≥
          p.config.time_sec * 1000
      · simp [h2]
      · simp [h2]
    · rw [if_neg helapsed] at htrig
      simp at htrig

/-- An Int32 channel whose only configured event is a 5 second timer. -/
def timerChannel : knot_proxy :=
  { zero_proxy 0 with
    id := 0
    schema := { type_id := 0, unit := 0, value_type := .vInt, name := "c" }
    config := { config_none with
      event_flags := KNOT_EVT_FLAG_TIME
      time_sec := 5 } }

/-- Witness for claim C8: the trigger equivalence applied to the concrete
timer channel at uptime 5000 ms. -/
theorem c8_timer_periodicity_witness :
    (knot_proxy_value_set_basic (some timerChannel) (.i 7) 5000).1 = true ↔
      (5000 % U32 + U32 - timerChannel.last_timeout % U32) % U32 ≥
        timerChannel.config.time_sec * 1000 :=
  c8_timer_periodicity.2.1 timerChannel 7 5000 rfl rfl (by decide) (by decide)
    (by decide) (by decide)

/-- An Int32 channel with OnChange configured, stored value 0, not forced,
and with wait-for-response mode off. -/
def intChangeChannel : knot_proxy :=
  { zero_proxy 0 with
    id := 0
    schema := { type_id := 0, unit := 0, value_type := .vInt, name := "i" }
    config := { config_none with event_flags := KNOT_EVT_FLAG_CHANGE } }

/-- Counterexample to claim C4 as stated: a set call on the int change
channel with candidate 1 triggers (returns true), yet afterwards the
channel's send flag is false, not set: the source assigns send := wait_resp
on trigger, and wait_resp is false here. -/
theorem c4_counterexample_send_not_set :
    (knot_proxy_value_set_basic (some intChangeChannel) (.i 1) 0).1 = true ∧
    ((knot_proxy_value_set_basic (some intChangeChannel) (.i 1) 0).2.getD
      (zero_proxy 0)).send = false := by
  decide

/-- Claim C4 (amended): on any triggering set call the candidate value
replaces the stored value and the transmit length is set, and the send
(pending) flag is assigned the channel's wait_resp mode - the
wait-for-acknowledgement mode most recently requested by the transport's
read call, which installs wait_resp before running the poll callback -
rather than being set unconditionally; wait_resp itself is unchanged by
set.  Stated for all four value kinds and for the read path. -/
theorem c4_trigger_stores_and_sets_send_to_wait_resp :
    (∀ (p : knot_proxy) (v : Bool) (now : Nat) (q : knot_proxy),
        p.schema.value_type = .vBool →
        (knot_proxy_value_set_basic (some p) (.b v) now).1 = true →
        (knot_proxy_value_set_basic (some p) (.b v) now).2 = some q →
        q.value.val_b = v ∧ q.olen = 1 ∧ q.send = p.wait_resp ∧
          q.wait_resp = p.wait_resp) ∧
    (∀ (p : knot_proxy) (v : Int) (now : Nat) (q : knot_proxy),
        p.schema.value_type = .vInt →
        (knot_proxy_value_set_basic (some p) (.i v) now).1 = true →
        (knot_proxy_value_set_basic (some p) (.i v) now).2 = some q →
        q.value.val_i = v ∧ q.olen = 4 ∧ q.send = p.wait_resp ∧
          q.wait_resp = p.wait_resp) ∧
    (∀ (p : knot_proxy) (v : ℚ) (now : Nat) (q : knot_proxy),
        p.schema.value_type = .vFloat →
        (knot_proxy_value_set_basic (some p) (.f v) now).1 = true →
        (knot_proxy_value_set_basic (some p) (.f v) now).2 = some q →
        q.value.val_f = v ∧ q.olen = 4 ∧ q.send = p.wait_resp ∧
          q.wait_resp = p.wait_resp) ∧
    (∀ (rawSize : Nat) (p : knot_proxy) (v : List Nat) (len now : Nat)
        (q : knot_proxy),
        (knot_proxy_value_set_string rawSize (some p) v len now).1 = true →
        (knot_proxy_value_set_string rawSize (some p) v len now).2 = some q →
        q.value.raw = memcpy_bytes p.value.raw v (min rawSize len) ∧
          q.olen = min rawSize len ∧ q.rlen = min rawSize len ∧
          q.send = p.wait_resp ∧ q.wait_resp = p.wait_resp) ∧
    (∀ (cbs : Nat → knot_proxy → knot_proxy) (st : ProxyState) (id : Nat)
        (w : Bool) (q : knot_proxy) (cb : Nat),
        st.pool[id]? = some q →
        q.id ≠ UNASSIGNED_ID →
        q.poll_cb = some cb →
        (proxy_read cbs st id w).2.pool[id]? =
          some (cbs cb { q with olen := 0, wait_resp := w })) := by
  refine ⟨?_, ?_, ?_, ?_, ?_⟩
  · intro p v now q hk htrig hq
    have hsub := check_timeout_snd p now
    have hk2 : (check_timeout p now).2.schema.value_type = .vBool := by
      rcases hsub with h | h <;> rw [h] <;> exact hk
    have hwr : (check_timeout p now).2.wait_resp = p.wait_resp := by
      rcases hsub with h | h <;> rw [h] <;> rfl
    simp only [knot_proxy_value_set_basic, BasicVal.asBool, hk2] at htrig hq
    split at htrig
    · rw [if_pos (by assumption)] at hq
      injection hq with hq
      refine ⟨by rw [← hq], by rw [← hq], ?_, ?_⟩
      · rw [← hq]
        exact hwr
      · rw [← hq]
        exact hwr
    · exact absurd htrig (by simp)
  · intro p v now q hk htrig hq
    have hsub := check_timeout_snd p now
    have hk2 : (check_timeout p now).2.schema.value_type = .vInt := by
      rcases hsub with h | h <;> rw [h] <;> exact hk
    have hwr : (check_timeout p now).2.wait_resp = p.wait_resp := by
      rcases hsub with h | h <;> rw [h] <;> rfl
    simp only [knot_proxy_value_set_basic, BasicVal.asInt, hk2] at htrig hq
    split at htrig
    · rw [if_pos (by assumption)] at hq
      injection hq with hq
      refine ⟨by rw [← hq], by rw [← hq], ?_, ?_⟩
      · rw [← hq]
        exact hwr
      · rw [← hq]
        exact hwr
    · exact absurd htrig (by simp)
  · intro p v now q hk htrig hq
    have hsub := check_timeout_snd p now
    have hk2 : (check_timeout p now).2.schema.value_type = .vFloat := by
      rcases hsub with h | h <;> rw [h] <;> exact hk
    have hwr : (check_timeout p now).2.wait_resp = p.wait_resp := by
      rcases hsub with h | h <;> rw [h] <;> rfl
    simp only [knot_proxy_value_set_basic, BasicVal.asFloat, hk2] at htrig hq
    split at htrig
    · rw [if_pos (by assumption)] at hq
      injection hq with hq
      refine ⟨by rw [← hq], by rw [← hq], ?_, ?_⟩
      · rw [← hq]
        exact hwr
      · rw [← hq]
        exact hwr
    · exact absurd htrig (by simp)
  · intro rawSize p v len now q htrig hq
    simp only [knot_proxy_value_set_string] at htrig hq
    split at htrig
    · exact absurd htrig (by simp)
    · rename_i hkraw
      have hsub := check_timeout_snd p now
      have hraw : (check_timeout p now).2.value.raw = p.value.raw := by
        rcases hsub with h | h <;> rw [h] <;> rfl
      have hwr : (check_timeout p now).2.wait_resp = p.wait_resp := by
        rcases hsub with h | h <;> rw [h] <;> rfl
      by_cases hcond : (!(check_timeout p now).2.send &&
          !check_raw_change (check_timeout p now).2 v len &&
          !(check_timeout p now).1) = true
      · rw [if_pos hcond] at htrig
        exact absurd htrig (by simp)
      · rw [if_neg hcond, if_neg hkraw] at hq
        dsimp only at hq
        injection hq with hq
        refine ⟨?_, by rw [← hq], by rw [← hq], ?_, ?_⟩
        · rw [← hq]
          simp [hraw]
        · rw [← hq]
          exact hwr
        · rw [← hq]
          exact hwr
  · intro cbs st id w q cb hget hid hpoll
    have hlt : id < st.pool.length := (List.getElem?_eq_some.mp hget).choose
    unfold proxy_read
    rw [hget]
    dsimp only
    rw [if_neg hid, hpoll]
    dsimp only
    split
    · exact List.getElem?_set_eq_of_lt _ hlt
    · exact List.getElem?_set_eq_of_lt _ hlt

/-- A Raw channel configured with a 1 second timer (OnTimer only). -/
def rawTimerChannel : knot_proxy :=
  { zero_proxy 4 with
    id := 0
    schema := { type_id := 0, unit := 0, value_type := .vRaw, name := "r" }
    config := { config_none with
      event_flags := KNOT_EVT_FLAG_TIME
      time_sec := 1 } }

/-- Counterexample to claim C5 as stated: calling the basic set variant on a
Raw channel (a kind it does not support) at uptime 2000 ms returns false,
but the channel is mutated: the shared timeout check has already rebased
last_timeout from 0 to 2000. -/
theorem c5_counterexample_timer_mutated :
    (knot_proxy_value_set_basic (some rawTimerChannel) (.i 0) 2000).1 = false ∧
    ((knot_proxy_value_set_basic (some rawTimerChannel) (.i 0) 2000).2.getD
      (zero_proxy 0)).last_timeout = 2000 ∧
    rawTimerChannel.last_timeout = 0 := by
  decide

/-- Claim C5 (amended): set on a null handle returns false touching nothing;
the string variant on a channel of non-Raw kind returns false with the
channel fully unchanged; but the basic variant on a channel of unsupported
kind runs the shared timeout check before dispatching on the kind, so it
returns false with the channel unchanged except that last_timeout may have
been rebased to the current time (when OnTimer is set and the period had
elapsed); no other field is mutated. -/
theorem c5_invalid_set_no_mutation :
    (∀ (v : BasicVal) (now : Nat),
        knot_proxy_value_set_basic none v now = (false, none)) ∧
    (∀ (p : knot_proxy) (v : BasicVal) (now : Nat),
        p.schema.value_type = .vRaw →
        knot_proxy_value_set_basic (some p) v now =
          (false, some (check_timeout p now).2) ∧
        ((check_timeout p now).2 = p ∨
          (check_timeout p now).2 = { p with last_timeout := now % U32 })) ∧
    (∀ (rawSize : Nat) (v : List Nat) (len now : Nat),
        knot_proxy_value_set_string rawSize none v len now = (false, none)) ∧
    (∀ (rawSize : Nat) (p : knot_proxy) (v : List Nat) (len now : Nat),
        p.schema.value_type ≠ .vRaw →
        knot_proxy_value_set_string rawSize (some p) v len now =
          (false, some p)) := by
  refine ⟨fun v now => rfl, ?_, fun rawSize v len now => rfl, ?_⟩
  · intro p v now hk
    have hsub := check_timeout_snd p now
    have hk2 : (check_timeout p now).2.schema.value_type = .vRaw := by
      rcases hsub with h | h <;> rw [h] <;> exact hk
    refine ⟨?_, hsub⟩
    simp only [knot_proxy_value_set_basic, hk2]
  · intro rawSize p v len now hk
    simp only [knot_proxy_value_set_string, if_pos hk]

/-- Witness for claim C5: the no-mutation description applied at the
concrete raw timer channel at uptime 2000 ms. -/
theorem c5_invalid_set_no_mutation_witness :
    knot_proxy_value_set_basic (some rawTimerChannel) (.i 0) 2000 =
      (false, some (check_timeout rawTimerChannel 2000).2) ∧
    ((check_timeout rawTimerChannel 2000).2 = rawTimerChannel ∨
      (check_timeout rawTimerChannel 2000).2 =
        { rawTimerChannel with last_timeout := 2000 % U32 }) :=
  c5_invalid_set_no_mutation.2.1 rawTimerChannel (.i 0) 2000 rfl

/-- The identity callback environment: every callback returns the channel
unchanged. -/
def idCallback : Nat → knot_proxy → knot_proxy := fun _ p => p

/-- A registered Raw channel (buffer capacity 16) with a delivery callback. -/
def rawDeliverChannel : knot_proxy :=
  { zero_proxy 16 with
    id := 0
    schema := { type_id := 0, unit := 0, value_type := .vRaw, name := "d" }
    changed_cb := some 0 }

/-- Registry state holding only the raw delivery channel. -/
def rawDeliverState : ProxyState :=
  { pool := [rawDeliverChannel], last_id := 0 }

/-- Counterexample to claim C3 as stated: delivering a raw payload of
requested length 17 to a channel whose buffer capacity is 16 records
raw_len = 17, exceeding the capacity, instead of the claimed clamp to
min(17, 16) = 16: the deliver/write path stores the length unclamped. -/
theorem c3_counterexample_write_unclamped :
    ((proxy_write idCallback rawDeliverState 0 (knot_value_zero 16) 17).2.pool.getD
      0 (zero_proxy 0)).rlen = 17 ∧ ¬(17 ≤ 16) := by
  decide

/-- Claim C3 (amended): on the set-string path an oversized payload is
silently clamped: exactly min(len, capacity) bytes are stored and that
length is recorded as rlen and reported as the transmit length olen, so
rlen ≤ capacity is preserved by every set-string call; the deliver/write
path however hands the changed callback a channel with rlen set to the
requested length unclamped, so it preserves the capacity bound only when
the delivered length is within capacity. -/
theorem c3_raw_length_bound :
    (∀ (rawSize : Nat) (p : knot_proxy) (v : List Nat) (len now : Nat)
        (q : knot_proxy),
        (knot_proxy_value_set_string rawSize (some p) v len now).2 = some q →
        ((knot_proxy_value_set_string rawSize (some p) v len now).1 = true →
          q.rlen = min rawSize len ∧ q.olen = min rawSize len ∧
          q.value.raw = memcpy_bytes p.value.raw v (min rawSize len)) ∧
        (p.rlen ≤ rawSize → q.rlen ≤ rawSize)) ∧
    (∀ (cbs : Nat → knot_proxy → knot_proxy) (st : ProxyState) (id : Nat)
        (v : knot_value_type) (len : Nat) (q : knot_proxy) (cb : Nat),
        id ≤ st.last_id →
        st.pool[id]? = some q →
        q.id ≠ UNASSIGNED_ID →
        q.changed_cb = some cb →
        q.schema.value_type = .vRaw →
        (proxy_write cbs st id v len).2.pool[id]? =
          some (cbs cb { q with value := v, rlen := len })) := by
  constructor
  · intro rawSize p v len now q hq
    have hsub := check_timeout_snd p now
    have hraw : (check_timeout p now).2.value.raw = p.value.raw := by
      rcases hsub with h | h <;> rw [h] <;> rfl
    have hrlen : (check_timeout p now).2.rlen = p.rlen := by
      rcases hsub with h | h <;> rw [h] <;> rfl
    simp only [knot_proxy_value_set_string] at hq ⊢
    by_cases hkraw : p.schema.value_type ≠ KnotValueType.vRaw
    · rw [if_pos hkraw] at hq ⊢
      dsimp only at hq
      injection hq with hq
      refine ⟨fun htrig => absurd htrig (by simp), fun hb => ?_⟩
      rw [← hq]
      exact hb
    · rw [if_neg hkraw] at hq ⊢
      by_cases hcond : (!(check_timeout p now).2.send &&
          !check_raw_change (check_timeout p now).2 v len &&
          !(check_timeout p now).1) = true
      · rw [if_pos hcond] at hq ⊢
        injection hq with hq
        refine ⟨fun htrig => absurd htrig (by simp), fun hb => ?_⟩
        rw [← hq, hrlen]
        exact hb
      · rw [if_neg hcond] at hq ⊢
        dsimp only at hq
        injection hq with hq
        refine ⟨fun _ => ⟨by rw [← hq], by rw [← hq], ?_⟩, fun hb => ?_⟩
        · rw [← hq]
          simp [hraw]
        · rw [← hq]
          simp [Nat.min_le_left]
  · intro cbs st id v len q cb hle hget hid hcb hkind
    have hlt : id < st.pool.length := (List.getElem?_eq_some.mp hget).choose
    unfold proxy_write
    rw [if_neg (Nat.not_lt.mpr hle), hget]
    dsimp only
    rw [if_neg hid, hcb]
    dsimp only
    rw [if_pos hkind]
    exact List.getElem?_set_eq_of_lt _ hlt

/-- Witness for claim C3: the unclamped write-path description applied at
the concrete raw delivery state with requested length 17. -/
theorem c3_raw_length_bound_witness :
    (proxy_write idCallback rawDeliverState 0 (knot_value_zero 16) 17).2.pool[0]? =
      some (idCallback 0
        { rawDeliverChannel with value := knot_value_zero 16, rlen := 17 }) :=
  c3_raw_length_bound.2 idCallback rawDeliverState 0 (knot_value_zero 16) 17
    rawDeliverChannel 0 (by decide) (by decide) (by decide) (by decide)
    (by decide)

/-- Witness for claim C4: the triggering-set description applied at the
concrete int change channel with candidate 1. -/
theorem c4_trigger_witness :
    ((knot_proxy_value_set_basic (some intChangeChannel) (.i 1) 0).2.getD
        (zero_proxy 0)).value.val_i = 1 ∧
    ((knot_proxy_value_set_basic (some intChangeChannel) (.i 1) 0).2.getD
        (zero_proxy 0)).olen = 4 ∧
    ((knot_proxy_value_set_basic (some intChangeChannel) (.i 1) 0).2.getD
        (zero_proxy 0)).send = intChangeChannel.wait_resp ∧
    ((knot_proxy_value_set_basic (some intChangeChannel) (.i 1) 0).2.getD
        (zero_proxy 0)).wait_resp = intChangeChannel.wait_resp :=
  c4_trigger_stores_and_sets_send_to_wait_resp.2.1 intChangeChannel 1 0
    ((knot_proxy_value_set_basic (some intChangeChannel) (.i 1) 0).2.getD
      (zero_proxy 0)) rfl (by decide) (by decide)

/-- Auxiliary: a configure call either fails leaving the state untouched or
reports success. -/
theorem set_config_fail_or_true
    (cv : Nat → KnotValueType → Nat → knot_value_type → knot_value_type → Int)
    (st : ProxyState) (id : Nat) (args : List CfgArg) :
    knot_proxy_set_config cv st id args = (false, st) ∨
    (knot_proxy_set_config cv st id args).1 = true := by
  unfold knot_proxy_set_config
  split
  · exact Or.inl rfl
  · split
    · exact Or.inl rfl
    · split
      · exact Or.inl rfl
      · dsimp only
        split
        · exact Or.inl rfl
        · split
          · exact Or.inl rfl
          · exact Or.inr rfl

/-- Claim C7: configuration replacement is atomic.  Any failing configure
call (unknown channel, unrecognized option, validator rejection) leaves the
state untouched; a successful call replaces the channel's event flags and
timer period with exactly the parsed new values (the limits are rewritten
when their flag is present and kept otherwise), touching nothing else. -/
theorem c7_config_atomic_replacement :
    (∀ (cv : Nat → KnotValueType → Nat → knot_value_type → knot_value_type → Int)
        (st : ProxyState) (id : Nat) (args : List CfgArg),
        (knot_proxy_set_config cv st id args).1 = false →
        (knot_proxy_set_config cv st id args).2 = st) ∧
    (∀ (cv : Nat → KnotValueType → Nat → knot_value_type → knot_value_type → Int)
        (st : ProxyState) (id : Nat) (args : List CfgArg),
        (knot_proxy_set_config cv st id args).1 = true →
        ∃ (p : knot_proxy) (acc : CfgAcc),
          st.pool[id]? = some p ∧
          parse_config_args p.schema.value_type args
            { event_flags := KNOT_EVT_FLAG_NONE, timeout_sec := 0,
              lower_limit := knot_value_zero 0,
              upper_limit := knot_value_zero 0 } = some acc ∧
          cv acc.event_flags p.schema.value_type acc.timeout_sec
            acc.lower_limit acc.upper_limit = 0 ∧
          (knot_proxy_set_config cv st id args).2 =
            { st with pool := st.pool.set id { p with config :=
              { event_flags := acc.event_flags
                time_sec := acc.timeout_sec
                upper_limit :=
                  if flag_in KNOT_EVT_FLAG_UPPER_THRESHOLD acc.event_flags then
                    acc.upper_limit
                  else p.config.upper_limit
                lower_limit :=
                  if flag_in KNOT_EVT_FLAG_LOWER_THRESHOLD acc.event_flags then
                    acc.lower_limit
                  else p.config.lower_limit } } }) := by
  constructor
  · intro cv st id args hfail
    rcases set_config_fail_or_true cv st id args with h | h
    · rw [h]
    · rw [hfail] at h
      exact absurd h (by simp)
  · intro cv st id args hsucc
    unfold knot_proxy_set_config at hsucc
    split at hsucc
    · exact absurd hsucc (by simp)
    · rename_i hlen
      split at hsucc
      · exact absurd hsucc (by simp)
      · rename_i proxy heq
        split at hsucc
        · exact absurd hsucc (by simp)
        · rename_i hid
          dsimp only at hsucc
          split at hsucc
          · exact absurd hsucc (by simp)
          · rename_i acc hparse
            split at hsucc
            · exact absurd hsucc (by simp)
            · rename_i hvalid
              refine ⟨proxy, acc, heq, hparse, by simpa using hvalid, ?_⟩
              unfold knot_proxy_set_config
              rw [if_neg hlen, heq]
              dsimp only
              rw [if_neg hid, hparse]
              dsimp only
              rw [if_neg hvalid]
              by_cases hU : flag_in KNOT_EVT_FLAG_UPPER_THRESHOLD
                  acc.event_flags = true
              · by_cases hL : flag_in KNOT_EVT_FLAG_LOWER_THRESHOLD
                    acc.event_flags = true
                · simp [hU, hL]
                · simp [hU, hL]
              · by_cases hL : flag_in KNOT_EVT_FLAG_LOWER_THRESHOLD
                    acc.event_flags = true
                · simp [hU, hL]
                · simp [hU, hL]

/-- Witness for claim C7: a configure call carrying an unrecognized option
flag fails and leaves the concrete state untouched. -/
theorem c7_config_atomic_replacement_witness :
    (knot_proxy_set_config (fun _ _ _ _ _ => 0) rawDeliverState 0
      [CfgArg.invalid 99]).2 = rawDeliverState :=
  c7_config_atomic_replacement.1 (fun _ _ _ _ _ => 0) rawDeliverState 0
    [CfgArg.invalid 99] (by decide)

/-- Claim C9: the deliver path.  Delivery to a registered channel without a
delivered callback is a silent no-op returning zero and changing nothing;
delivery to an in-range identifier whose slot was never registered fails
with -EINVAL (UnknownChannel) changing nothing; otherwise the value is
stored (plus the length for a Raw channel), the delivered callback is
invoked on the updated channel, and its resulting transmit length is
returned. -/
theorem c9_deliver_callback_contract :
    (∀ (cbs : Nat → knot_proxy → knot_proxy) (st : ProxyState) (id : Nat)
        (v : knot_value_type) (len : Nat) (q : knot_proxy),
        id ≤ st.last_id →
        st.pool[id]? = some q →
        q.id ≠ UNASSIGNED_ID →
        q.changed_cb = none →
        proxy_write cbs st id v len = (0, st)) ∧
    (∀ (cbs : Nat → knot_proxy → knot_proxy) (st : ProxyState) (id : Nat)
        (v : knot_value_type) (len : Nat) (q : knot_proxy),
        st.pool[id]? = some q →
        q.id = UNASSIGNED_ID →
        proxy_write cbs st id v len = (-EINVAL, st)) ∧
    (∀ (cbs : Nat → knot_proxy → knot_proxy) (st : ProxyState) (id : Nat)
        (v : knot_value_type) (len : Nat) (q : knot_proxy) (cb : Nat),
        id ≤ st.last_id →
        st.pool[id]? = some q →
        q.id ≠ UNASSIGNED_ID →
        q.changed_cb = some cb →
        proxy_write cbs st id v len =
          (((cbs cb (if q.schema.value_type = .vRaw then
              { q with value := v, rlen := len }
            else { q with value := v })).olen : Int),
          { st with pool := st.pool.set id (cbs cb
            (if q.schema.value_type = .vRaw then
              { q with value := v, rlen := len }
            else { q with value := v })) })) := by
  refine ⟨?_, ?_, ?_⟩
  · intro cbs st id v len q hle hget hid hcb
    unfold proxy_write
    rw [if_neg (Nat.not_lt.mpr hle), hget]
    dsimp only
    rw [if_neg hid, hcb]
  · intro cbs st id v len q hget hid
    unfold proxy_write
    by_cases hgt : id > st.last_id
    · rw [if_pos hgt]
    · rw [if_neg hgt, hget]
      dsimp only
      rw [if_pos hid]
  · intro cbs st id v len q cb hle hget hid hcb
    unfold proxy_write
    rw [if_neg (Nat.not_lt.mpr hle), hget]
    dsimp only
    rw [if_neg hid, hcb]

/-- A registered Int32 channel without a delivered callback. -/
def intNoCbChannel : knot_proxy :=
  { zero_proxy 4 with
    id := 0
    schema := { type_id := 0, unit := 0, value_type := .vInt, name := "n" } }

/-- Registry state holding only the callback-free int channel. -/
def intNoCbState : ProxyState :=
  { pool := [intNoCbChannel], last_id := 0 }

/-- Witness for claim C9: delivery to the concrete callback-free channel is
a silent no-op returning zero. -/
theorem c9_deliver_callback_contract_witness :
    proxy_write idCallback intNoCbState 0 (knot_value_zero 4) 4 =
      (0, intNoCbState) :=
  c9_deliver_callback_contract.1 idCallback intNoCbState 0 (knot_value_zero 4)
    4 intNoCbChannel (by decide) (by decide) (by decide) (by decide)
/-- Transient fields of every unassigned slot are zero, as left by
proxy_init. -/
def UnassignedPristine (st : ProxyState) : Prop :=
  ∀ (j : Nat) (q : knot_proxy), st.pool[j]? = some q →
    q.id = UNASSIGNED_ID →
    q.send = false ∧ q.wait_resp = false ∧ q.upper_flag = false ∧
    q.lower_flag = false ∧ q.olen = 0 ∧ q.rlen = 0 ∧ q.last_timeout = 0 ∧
    q.config.event_flags = KNOT_EVT_FLAG_NONE

/-- Registry bookkeeping invariant: every assigned slot stores its own
index, indices of assigned slots never exceed last_id, last_id points at an
assigned slot when it is not the sentinel, and the sentinel value of
last_id means that no slot is assigned. -/
def RegistryInv (st : ProxyState) : Prop :=
  (∀ (j : Nat) (q : knot_proxy), st.pool[j]? = some q →
    q.id ≠ UNASSIGNED_ID → q.id = j ∧ j ≤ st.last_id) ∧
  (st.last_id = UNASSIGNED_ID ∨
    ∃ q, st.pool[st.last_id]? = some q ∧ q.id ≠ UNASSIGNED_ID) ∧
  (st.last_id = UNASSIGNED_ID →
    ∀ (j : Nat) (q : knot_proxy), st.pool[j]? = some q →
      q.id = UNASSIGNED_ID)

/-- The slot contents written by a successful registration over the prior
slot contents. -/
def registered_proxy (slot : knot_proxy) (id : Nat) (name : Option String)
    (t : Nat) (vt : KnotValueType) (u : Nat) (ccb pcb : Option Nat) :
    knot_proxy :=
  { slot with
    id := id
    schema := { type_id := t, unit := u, value_type := vt,
                name := (name.getD "").take KNOT_PROTOCOL_DATA_NAME_LEN }
    send := false
    upper_flag := false
    lower_flag := false
    olen := 0
    config := { slot.config with event_flags := KNOT_EVT_FLAG_NONE }
    poll_cb := pcb
    changed_cb := ccb }

/-- The last_id value after a successful registration of id. -/
def updated_last_id (st : ProxyState) (id : Nat) : Nat :=
  if id > st.last_id ∨ st.last_id = UNASSIGNED_ID then id else st.last_id

/-- Auxiliary: shape of a successful registration. -/
theorem register_some_shape
    (sv : Nat → KnotValueType → Nat → Int) (st : ProxyState) (id : Nat)
    (name : Option String) (t : Nat) (vt : KnotValueType) (u : Nat)
    (ccb pcb : Option Nat) (st2 : ProxyState)
    (h : knot_proxy_register sv st id name t vt u ccb pcb = some st2) :
    ∃ slot, id < st.pool.length ∧ st.pool[id]? = some slot ∧
      slot.id = UNASSIGNED_ID ∧ sv t vt u = 0 ∧ name ≠ none ∧
      st2 = { pool := st.pool.set id
                (registered_proxy slot id name t vt u ccb pcb),
              last_id := updated_last_id st id } := by
  unfold knot_proxy_register at h
  split at h
  · cases h
  · rename_i hlen
    split at h
    · cases h
    · rename_i slot heq
      split at h
      · cases h
      · rename_i hnn
        split at h
        · cases h
        · rename_i hok
          have hok2 := not_or.mp hok
          injection h with h
          exact ⟨slot, Nat.lt_of_not_le (fun hle => hlen (by exact hle)),
            heq, not_not.mp hnn, not_not.mp hok2.1, hok2.2, h.symm⟩

/-- Auxiliary: the state after a configure call is either unchanged or has
one assigned slot rewritten, its identifier preserved. -/
theorem set_config_snd_cases
    (cv : Nat → KnotValueType → Nat → knot_value_type → knot_value_type → Int)
    (st : ProxyState) (id : Nat) (args : List CfgArg) :
    (knot_proxy_set_config cv st id args).2 = st ∨
    ∃ p p2, st.pool[id]? = some p ∧ p.id = id ∧
      (knot_proxy_set_config cv st id args).2 =
        { st with pool := st.pool.set id p2 } ∧ p2.id = p.id := by
  unfold knot_proxy_set_config
  split
  · exact Or.inl rfl
  · split
    · exact Or.inl rfl
    · rename_i proxy heq
      split
      · exact Or.inl rfl
      · rename_i hid
        dsimp only
        split
        · exact Or.inl rfl
        · rename_i acc hparse
          split
          · exact Or.inl rfl
          · refine Or.inr ⟨proxy, _, heq, not_not.mp hid, rfl, ?_⟩
            by_cases hU : flag_in KNOT_EVT_FLAG_UPPER_THRESHOLD
                acc.event_flags = true <;>
              by_cases hL : flag_in KNOT_EVT_FLAG_LOWER_THRESHOLD
                  acc.event_flags = true <;>
                simp [hU, hL]

/-- Auxiliary: the state after a read call is either unchanged or has the
polled assigned slot rewritten by the poll callback. -/
theorem proxy_read_snd_cases (cbs : Nat → knot_proxy → knot_proxy)
    (st : ProxyState) (id : Nat) (w : Bool) :
    (proxy_read cbs st id w).2 = st ∨
    ∃ q cb, st.pool[id]? = some q ∧ q.id ≠ UNASSIGNED_ID ∧
      q.poll_cb = some cb ∧
      (proxy_read cbs st id w).2 =
        { st with
          pool := st.pool.set id (cbs cb { q with olen := 0, wait_resp := w }) } := by
  unfold proxy_read
  split
  · exact Or.inl rfl
  · rename_i q heq
    split
    · exact Or.inl rfl
    · rename_i hid
      split
      · exact Or.inl rfl
      · rename_i cb hcb
        dsimp only
        split
        · exact Or.inr ⟨q, cb, heq, hid, hcb, rfl⟩
        · exact Or.inr ⟨q, cb, heq, hid, hcb, rfl⟩

/-- Auxiliary: the state after a write call is either unchanged or has the
delivered assigned slot rewritten by the changed callback. -/
theorem proxy_write_snd_cases (cbs : Nat → knot_proxy → knot_proxy)
    (st : ProxyState) (id : Nat) (v : knot_value_type) (len : Nat) :
    (proxy_write cbs st id v len).2 = st ∨
    ∃ q cb, st.pool[id]? = some q ∧ q.id ≠ UNASSIGNED_ID ∧
      q.changed_cb = some cb ∧
      (proxy_write cbs st id v len).2 =
        { st with
          pool := st.pool.set id (cbs cb (if q.schema.value_type = .vRaw then { q with value := v, rlen := len } else { q with value := v })) } := by
  unfold proxy_write
  split
  · exact Or.inl rfl
  · split
    · exact Or.inl rfl
    · rename_i q heq
      split
      · exact Or.inl rfl
      · rename_i hid
        split
        · exact Or.inl rfl
        · rename_i cb hcb
          dsimp only
          exact Or.inr ⟨q, cb, heq, hid, hcb, rfl⟩

/-- Auxiliary: the state after a force-send call is either unchanged or has
one assigned slot's send flag raised. -/
theorem proxy_force_send_snd_cases (st : ProxyState) (id : Nat) :
    (proxy_force_send st id).2 = st ∨
    ∃ q, st.pool[id]? = some q ∧ q.id ≠ UNASSIGNED_ID ∧
      (proxy_force_send st id).2 =
        { st with pool := st.pool.set id { q with send := true } } := by
  unfold proxy_force_send
  split
  · exact Or.inl rfl
  · rename_i q heq
    split
    · exact Or.inl rfl
    · rename_i hid
      exact Or.inr ⟨q, heq, hid, rfl⟩

/-- Auxiliary: the state after a confirm-sent call is either unchanged or
has one assigned slot's send flag cleared. -/
theorem proxy_confirm_sent_snd_cases (st : ProxyState) (id : Nat) :
    (proxy_confirm_sent st id).2 = st ∨
    ∃ q, st.pool[id]? = some q ∧ q.id ≠ UNASSIGNED_ID ∧
      (proxy_confirm_sent st id).2 =
        { st with pool := st.pool.set id { q with send := false } } := by
  unfold proxy_confirm_sent
  split
  · exact Or.inl rfl
  · rename_i q heq
    split
    · exact Or.inl rfl
    · rename_i hid
      exact Or.inr ⟨q, heq, hid, rfl⟩

/-- Auxiliary: rewriting one assigned slot with a proxy carrying the same
identifier preserves the registry invariants and the pool length. -/
theorem inv_set_preserved (st : ProxyState) (i : Nat) (p2 q : knot_proxy)
    (m : Nat) (hM : m ≤ 255)
    (hlen : st.pool.length = m)
    (hup : UnassignedPristine st)
    (hri : RegistryInv st)
    (hget : st.pool[i]? = some q)
    (hqid : q.id ≠ UNASSIGNED_ID)
    (hp2 : p2.id = q.id) :
    ({ st with pool := st.pool.set i p2 } : ProxyState).pool.length = m ∧
    UnassignedPristine { st with pool := st.pool.set i p2 } ∧
    RegistryInv { st with pool := st.pool.set i p2 } := by
  obtain ⟨hb1, hb2, hb3⟩ := hri
  have hlt : i < st.pool.length := (List.getElem?_eq_some.mp hget).choose
  refine ⟨by simp [hlen], ?_, ?_, ?_, ?_⟩
  · intro j r hr hrid
    by_cases hj : j = i
    · subst hj
      rw [List.getElem?_set_eq_of_lt _ hlt] at hr
      injection hr with hr
      rw [← hr, hp2] at hrid
      exact absurd hrid (by simpa using hqid)
    · rw [List.getElem?_set_ne (fun hh => hj hh.symm)] at hr
      exact hup j r hr hrid
  · intro j r hr hrid
    by_cases hj : j = i
    · subst hj
      rw [List.getElem?_set_eq_of_lt _ hlt] at hr
      injection hr with hr
      rw [← hr, hp2]
      exact hb1 j q hget hqid
    · rw [List.getElem?_set_ne (fun hh => hj hh.symm)] at hr
      exact hb1 j r hr hrid
  · rcases hb2 with h2 | ⟨r, hr, hrid⟩
    · exact absurd (hb3 h2 i q hget) hqid
    · right
      by_cases hj : st.last_id = i
      · refine ⟨p2, ?_, ?_⟩
        · rw [hj]
          exact List.getElem?_set_eq_of_lt _ hlt
        · rw [hp2]
          exact hqid
      · refine ⟨r, ?_, hrid⟩
        rw [List.getElem?_set_ne (fun hh => hj hh.symm)]
        exact hr
  · intro hsent
    exact absurd (hb3 hsent i q hget) hqid

/-- Auxiliary: every slot of the initial state is the pristine proxy. -/
theorem initial_slot (m rawSize j : Nat) (q : knot_proxy)
    (hget : (initial_state m rawSize).pool[j]? = some q) :
    q = pristine_proxy rawSize := by
  simp only [initial_state, proxy_init, List.length_replicate,
    List.getElem?_replicate] at hget
  split at hget
  · injection hget with hget
    exact hget.symm
  · cases hget

/-- Auxiliary: the reachability invariant.  Along every trace from the
initial state (with a sane capacity and callbacks that cannot change a
channel's identifier), the pool keeps its length, unassigned slots keep
zeroed transient state, and the last_id bookkeeping of RegistryInv holds. -/
theorem reach_registry_inv
    (sv : Nat → KnotValueType → Nat → Int)
    (cv : Nat → KnotValueType → Nat → knot_value_type → knot_value_type → Int)
    (cbs : Nat → knot_proxy → knot_proxy) (m rawSize : Nat)
    (hM : m ≤ 255) (hcb : ∀ c p, (cbs c p).id = p.id) :
    ∀ st, Reach sv cv cbs m rawSize st →
      st.pool.length = m ∧ UnassignedPristine st ∧ RegistryInv st := by
  intro st h
  induction h with
  | init =>
    refine ⟨by simp [initial_state, proxy_init], ?_, ?_, Or.inl rfl, ?_⟩
    · intro j q hget _
      rw [initial_slot m rawSize j q hget]
      exact ⟨rfl, rfl, rfl, rfl, rfl, rfl, rfl, rfl⟩
    · intro j q hget hqid
      rw [initial_slot m rawSize j q hget] at hqid
      exact absurd rfl hqid
    · intro _ j q hget
      rw [initial_slot m rawSize j q hget]
      rfl
  | step op h ih =>
    obtain ⟨hlen, hup, hb1, hb2, hb3⟩ := ih
    rename_i stp
    have hne_of_get : ∀ (i : Nat) (q : knot_proxy), stp.pool[i]? = some q →
        q.id = i → q.id ≠ UNASSIGNED_ID := by
      intro i q hget hqi
      have hlt : i < stp.pool.length := (List.getElem?_eq_some.mp hget).choose
      rw [hqi]
      exact Nat.ne_of_lt (lt_of_lt_of_le (hlen ▸ hlt) hM)
    cases op with
    | opRegister id name t vt u ccb pcb =>
      dsimp only [proxy_step]
      rcases hreg : knot_proxy_register sv stp id name t vt u ccb pcb with
        _ | st2
      · exact ⟨hlen, hup, hb1, hb2, hb3⟩
      · obtain ⟨slot, hlt, hslotget, hslotid, hsv, hname, hst2⟩ :=
          register_some_shape sv stp id name t vt u ccb pcb st2 hreg
        subst hst2
        dsimp only [Option.getD]
        have hidlt : id < 255 := lt_of_lt_of_le (hlen ▸ hlt) hM
        have hidne : id ≠ UNASSIGNED_ID := Nat.ne_of_lt hidlt
        refine ⟨by simp [hlen], ?_, ?_, ?_, ?_⟩
        · intro j r hr hrid
          by_cases hj : j = id
          · subst hj
            rw [List.getElem?_set_eq_of_lt _ hlt] at hr
            injection hr with hr
            rw [← hr] at hrid
            exact absurd hrid hidne
          · rw [List.getElem?_set_ne (fun hh => hj hh.symm)] at hr
            exact hup j r hr hrid
        · intro j r hr hrid
          by_cases hj : j = id
          · subst hj
            rw [List.getElem?_set_eq_of_lt _ hlt] at hr
            injection hr with hr
            constructor
            · rw [← hr]
              rfl
            · unfold updated_last_id
              split
              · exact le_refl j
              · rename_i hcond
                rw [not_or] at hcond
                exact Nat.le_of_not_lt hcond.1
          · rw [List.getElem?_set_ne (fun hh => hj hh.symm)] at hr
            obtain ⟨hrj, hrle⟩ := hb1 j r hr hrid
            refine ⟨hrj, ?_⟩
            unfold updated_last_id
            split
            · rename_i hcond
              rcases hcond with hgt | hsent
              · exact le_of_lt (lt_of_le_of_lt hrle hgt)
              · exact absurd (hb3 hsent j r hr) hrid
            · exact hrle
        · unfold updated_last_id
          split
          · right
            refine ⟨registered_proxy slot id name t vt u ccb pcb, ?_, hidne⟩
            exact List.getElem?_set_eq_of_lt _ hlt
          · rename_i hcond
            rw [not_or] at hcond
            rcases hb2 with hsent | ⟨r, hr, hrid⟩
            · exact absurd hsent hcond.2
            · right
              have hlast_ne : stp.last_id ≠ id := by
                intro hh
                rw [hh] at hr
                rw [hslotget] at hr
                injection hr with hr
                rw [← hr] at hrid
                exact hrid hslotid
              refine ⟨r, ?_, hrid⟩
              rw [List.getElem?_set_ne (fun hh => hlast_ne hh.symm)]
              exact hr
        · intro hsent2
          unfold updated_last_id at hsent2
          split at hsent2
          · exact absurd hsent2 hidne
          · rename_i hcond
            rw [not_or] at hcond
            exact absurd hsent2 hcond.2
    | opSetConfig id args =>
      dsimp only [proxy_step]
      rcases set_config_snd_cases cv stp id args with hsnd |
        ⟨p, p2, hget, hpid, hsnd, hp2id⟩
      · rw [hsnd]
        exact ⟨hlen, hup, hb1, hb2, hb3⟩
      · rw [hsnd]
        exact inv_set_preserved stp id p2 p m hM hlen hup ⟨hb1, hb2, hb3⟩
          hget (hne_of_get id p hget hpid) hp2id
    | opRead id w =>
      dsimp only [proxy_step]
      rcases proxy_read_snd_cases cbs stp id w with hsnd |
        ⟨q, cb, hget, hqid, hpoll, hsnd⟩
      · rw [hsnd]
        exact ⟨hlen, hup, hb1, hb2, hb3⟩
      · rw [hsnd]
        exact inv_set_preserved stp id _ q m hM hlen hup ⟨hb1, hb2, hb3⟩
          hget hqid (hcb cb _)
    | opWrite id v len =>
      dsimp only [proxy_step]
      rcases proxy_write_snd_cases cbs stp id v len with hsnd |
        ⟨q, cb, hget, hqid, hccb, hsnd⟩
      · rw [hsnd]
        exact ⟨hlen, hup, hb1, hb2, hb3⟩
      · rw [hsnd]
        refine inv_set_preserved stp id _ q m hM hlen hup ⟨hb1, hb2, hb3⟩
          hget hqid ?_
        rw [hcb cb _]
        by_cases hkind : q.schema.value_type = KnotValueType.vRaw
        · rw [if_pos hkind]
        · rw [if_neg hkind]
    | opForceSend id =>
      dsimp only [proxy_step]
      rcases proxy_force_send_snd_cases stp id with hsnd |
        ⟨q, hget, hqid, hsnd⟩
      · rw [hsnd]
        exact ⟨hlen, hup, hb1, hb2, hb3⟩
      · rw [hsnd]
        exact inv_set_preserved stp id _ q m hM hlen hup ⟨hb1, hb2, hb3⟩
          hget hqid rfl
    | opConfirmSent id =>
      dsimp only [proxy_step]
      rcases proxy_confirm_sent_snd_cases stp id with hsnd |
        ⟨q, hget, hqid, hsnd⟩
      · rw [hsnd]
        exact ⟨hlen, hup, hb1, hb2, hb3⟩
      · rw [hsnd]
        exact inv_set_preserved stp id _ q m hM hlen hup ⟨hb1, hb2, hb3⟩
          hget hqid rfl

/-- Counterexample to claim C6 as stated: registering with an empty (but
non-null) name succeeds, because the source checks only for a NULL name
pointer; the claim says an empty name must fail with InvalidSchema. -/
theorem c6_counterexample_empty_name_accepted :
    (knot_proxy_register (fun _ _ _ => 0) (initial_state 1 4) 0 (some "") 0
      .vBool 0 none none).isSome = true := by
  decide

/-- Claim C6 (amended): registration fails exactly when the id is out of the
table's range, the slot is already taken, the external validator rejects
the schema triple, or the name is null (a missing name; an empty name is
accepted); and on success, in every reachable state, all transient flags of
the new channel are false/zero (the fields registration does not write were
already zeroed, an invariant of unassigned slots). -/
theorem c6_register_validation :
    (∀ (sv : Nat → KnotValueType → Nat → Int) (st : ProxyState) (id : Nat)
        (name : Option String) (t : Nat) (vt : KnotValueType) (u : Nat)
        (ccb pcb : Option Nat),
        knot_proxy_register sv st id name t vt u ccb pcb = none ↔
          (id ≥ st.pool.length ∨
            (∃ q, st.pool[id]? = some q ∧ q.id ≠ UNASSIGNED_ID) ∨
            sv t vt u ≠ 0 ∨ name = none)) ∧
    (∀ (sv : Nat → KnotValueType → Nat → Int)
        (cv : Nat → KnotValueType → Nat → knot_value_type → knot_value_type → Int)
        (cbs : Nat → knot_proxy → knot_proxy) (m rawSize : Nat)
        (st : ProxyState) (id : Nat) (name : Option String) (t : Nat)
        (vt : KnotValueType) (u : Nat) (ccb pcb : Option Nat)
        (st2 : ProxyState),
        Reach sv cv cbs m rawSize st → m ≤ 255 →
        (∀ c p, (cbs c p).id = p.id) →
        knot_proxy_register sv st id name t vt u ccb pcb = some st2 →
        ∃ q, st2.pool[id]? = some q ∧ q.send = false ∧ q.wait_resp = false ∧
          q.upper_flag = false ∧ q.lower_flag = false ∧ q.olen = 0 ∧
          q.rlen = 0 ∧ q.last_timeout = 0 ∧
          q.config.event_flags = KNOT_EVT_FLAG_NONE) := by
  constructor
  · intro sv st id name t vt u ccb pcb
    unfold knot_proxy_register
    split
    · rename_i hge
      exact iff_of_true rfl (Or.inl hge)
    · rename_i hge
      split
      · rename_i heq
        exact absurd (List.getElem?_eq_none_iff.mp heq) hge
      · rename_i slot heq
        split
        · rename_i hne
          exact iff_of_true rfl (Or.inr (Or.inl ⟨slot, heq, hne⟩))
        · rename_i hnn
          split
          · rename_i hbad
            exact iff_of_true rfl (Or.inr (Or.inr hbad))
          · rename_i hok
            refine iff_of_false (by simp) ?_
            rintro (hh | ⟨q, hq, hqid⟩ | hh)
            · exact hge hh
            · rw [heq] at hq
              injection hq with hq
              rw [← hq] at hqid
              exact hqid (not_not.mp hnn)
            · exact hok hh
  · intro sv cv cbs m rawSize st id name t vt u ccb pcb st2 hreach hM hcb hreg
    obtain ⟨hlen, hup, _⟩ :=
      reach_registry_inv sv cv cbs m rawSize hM hcb st hreach
    obtain ⟨slot, hlt, hslotget, hslotid, _, _, hst2⟩ :=
      register_some_shape sv st id name t vt u ccb pcb st2 hreg
    subst hst2
    obtain ⟨hs, hw, huf, hlf, ho, hr, hlt0, hef⟩ :=
      hup id slot hslotget hslotid
    exact ⟨registered_proxy slot id name t vt u ccb pcb,
      List.getElem?_set_eq_of_lt _ hlt, rfl, hw, rfl, rfl, rfl, hr, hlt0, rfl⟩

set_option maxRecDepth 8192 in
/-- Witness for claim C6: the success postcondition applied to a concrete
registration of id 0 from the initial single-slot state. -/
theorem c6_register_validation_witness :
    ∃ q, ((knot_proxy_register (fun _ _ _ => 0) (initial_state 1 4) 0
        (some "x") 0 .vBool 0 none none).getD
        (initial_state 1 4)).pool[0]? = some q ∧
      q.send = false ∧ q.wait_resp = false ∧ q.upper_flag = false ∧
      q.lower_flag = false ∧ q.olen = 0 ∧ q.rlen = 0 ∧ q.last_timeout = 0 ∧
      q.config.event_flags = KNOT_EVT_FLAG_NONE :=
  c6_register_validation.2 (fun _ _ _ => 0) (fun _ _ _ _ _ => 0)
    (fun _ p => p) 1 4 (initial_state 1 4) 0 (some "x") 0 .vBool 0 none none
    ((knot_proxy_register (fun _ _ _ => 0) (initial_state 1 4) 0 (some "x") 0
      .vBool 0 none none).getD (initial_state 1 4))
    Reach.init (by decide) (fun _ _ => rfl) (by decide)

/-- Claim C10: after initialization the highest-registered-id query returns
the sentinel; in every reachable state the sentinel is returned exactly
when no channel is registered, every registered channel's index is bounded
by the returned value, and when not the sentinel the returned value is
itself a registered index (so it is the maximum and a sweep up to it visits
every registered channel); and no operation ever decreases it once it
holds a real identifier. -/
theorem c10_last_id_tracks_max :
    (∀ (m rawSize : Nat),
        proxy_get_last_id (initial_state m rawSize) = UNASSIGNED_ID) ∧
    (∀ (sv : Nat → KnotValueType → Nat → Int)
        (cv : Nat → KnotValueType → Nat → knot_value_type → knot_value_type → Int)
        (cbs : Nat → knot_proxy → knot_proxy) (m rawSize : Nat)
        (st : ProxyState),
        Reach sv cv cbs m rawSize st → m ≤ 255 →
        (∀ c p, (cbs c p).id = p.id) →
        ((proxy_get_last_id st = UNASSIGNED_ID ↔
          ∀ (j : Nat) (q : knot_proxy), st.pool[j]? = some q →
            q.id = UNASSIGNED_ID) ∧
        (∀ (j : Nat) (q : knot_proxy), st.pool[j]? = some q →
          q.id ≠ UNASSIGNED_ID → j ≤ proxy_get_last_id st) ∧
        (proxy_get_last_id st ≠ UNASSIGNED_ID →
          ∃ q, st.pool[proxy_get_last_id st]? = some q ∧
            q.id ≠ UNASSIGNED_ID))) ∧
    (∀ (sv : Nat → KnotValueType → Nat → Int)
        (cv : Nat → KnotValueType → Nat → knot_value_type → knot_value_type → Int)
        (cbs : Nat → knot_proxy → knot_proxy) (st : ProxyState)
        (op : ProxyOp),
        proxy_get_last_id st ≠ UNASSIGNED_ID →
        proxy_get_last_id st ≤
          proxy_get_last_id (proxy_step sv cv cbs st op)) := by
  refine ⟨fun m rawSize => rfl, ?_, ?_⟩
  · intro sv cv cbs m rawSize st hreach hM hcb
    obtain ⟨hlen, hup, hb1, hb2, hb3⟩ :=
      reach_registry_inv sv cv cbs m rawSize hM hcb st hreach
    refine ⟨⟨hb3, ?_⟩, fun j q hget hqid => (hb1 j q hget hqid).2, ?_⟩
    · intro hall
      rcases hb2 with hsent | ⟨q, hq, hqid⟩
      · exact hsent
      · exact absurd (hall _ q hq) hqid
    · intro hne
      rcases hb2 with hsent | hex
      · exact absurd hsent hne
      · exact hex
  · intro sv cv cbs st op hne
    cases op with
    | opRegister id name t vt u ccb pcb =>
      dsimp only [proxy_step]
      rcases hreg : knot_proxy_register sv st id name t vt u ccb pcb with
        _ | st2
      · exact le_refl _
      · obtain ⟨slot, hlt, hslotget, hslotid, _, _, hst2⟩ :=
          register_some_shape sv st id name t vt u ccb pcb st2 hreg
        subst hst2
        dsimp only [Option.getD, proxy_get_last_id]
        unfold updated_last_id
        split
        · rename_i hcond
          rcases hcond with hgt | hsent
          · exact le_of_lt hgt
          · exact absurd hsent hne
        · exact le_refl _
    | opSetConfig id args =>
      dsimp only [proxy_step]
      rcases set_config_snd_cases cv st id args with hsnd |
        ⟨p, p2, _, _, hsnd, _⟩ <;> rw [hsnd] <;> exact le_refl _
    | opRead id w =>
      dsimp only [proxy_step]
      rcases proxy_read_snd_cases cbs st id w with hsnd |
        ⟨q, cb, _, _, _, hsnd⟩ <;> rw [hsnd] <;> exact le_refl _
    | opWrite id v len =>
      dsimp only [proxy_step]
      rcases proxy_write_snd_cases cbs st id v len with hsnd |
        ⟨q, cb, _, _, _, hsnd⟩ <;> rw [hsnd] <;> exact le_refl _
    | opForceSend id =>
      dsimp only [proxy_step]
      rcases proxy_force_send_snd_cases st id with hsnd |
        ⟨q, _, _, hsnd⟩ <;> rw [hsnd] <;> exact le_refl _
    | opConfirmSent id =>
      dsimp only [proxy_step]
      rcases proxy_confirm_sent_snd_cases st id with hsnd |
        ⟨q, _, _, hsnd⟩ <;> rw [hsnd] <;> exact le_refl _

/-- Witness for claim C10: the reachable-state characterization applied at
the initial single-slot state. -/
theorem c10_last_id_tracks_max_witness :
    (proxy_get_last_id (initial_state 1 4) = UNASSIGNED_ID ↔
      ∀ (j : Nat) (q : knot_proxy), (initial_state 1 4).pool[j]? = some q →
        q.id = UNASSIGNED_ID) ∧
    (∀ (j : Nat) (q : knot_proxy), (initial_state 1 4).pool[j]? = some q →
      q.id ≠ UNASSIGNED_ID → j ≤ proxy_get_last_id (initial_state 1 4)) ∧
    (proxy_get_last_id (initial_state 1 4) ≠ UNASSIGNED_ID →
      ∃ q, (initial_state 1 4).pool[proxy_get_last_id (initial_state 1 4)]? =
        some q ∧ q.id ≠ UNASSIGNED_ID) :=
  c10_last_id_tracks_max.2.1 (fun _ _ _ => 0) (fun _ _ _ _ _ => 0)
    (fun _ p => p) 1 4 (initial_state 1 4) Reach.init (by decide)
    (fun _ _ => rfl)
